import Mathlib

/-!
Verification of the lightning-address-details proxy.

The repository contains two variants of the same HTTP handler:

* src/main.go, which factors the logic into the helper functions
  GetJSON and ToUrl and fetches the lnurlp endpoint before keysend;
* src/unnamed/part_000, which inlines the same logic in the handler body
  and fetches keysend before lnurlp.

This file gives a shallow embedding of the resolution logic of both
variants and proves, or refutes, the frozen claims about them.

Modelling choices:

* A JSON value decoded from a response body is modelled by the inductive
  type Json below. The Go code stores the decoded value in an opaque
  interface value and never inspects it, so the only facts that matter
  are whether decoding succeeded and which value was decoded. Arrays and
  objects are represented spine-style (arrCons / objCons) so that
  decidable equality is derivable.
* The outcome of http.Get for a URL is an Option HttpResponse: none is a
  transport-level failure with no response object; some r is a received
  response carrying its status code and its body. The body is stored
  already classified by the JSON decoder: some j when the body decodes to
  the JSON value j, none when decoding fails.
* A run of the handler is parametrised by a fetcher, a function from URL
  strings to fetch outcomes, which fixes the outcome of every outbound
  http.Get performed during that run.
* Go strings.Split with the one-character separator at-sign is embedded
  as splitOnChar over the character list of the string.
-/

/-- Decoded JSON values, as produced by encoding/json into an opaque
interface value. Arrays and objects are spine-encoded lists. -/
inductive Json where
  | null
  | bool (b : Bool)
  | num (n : Int)
  | str (s : String)
  | arrNil
  | arrCons (head : Json) (tail : Json)
  | objNil
  | objCons (key : String) (value : Json) (rest : Json)
deriving DecidableEq, Repr

/-- A received HTTP response: its status code, and its body as classified
by the JSON decoder (some j when the body decodes to j, none when the
body is not decodable JSON). -/
structure HttpResponse where
  statusCode : Nat
  body : Option Json
deriving DecidableEq, Repr

/-- The two error shapes produced by GetJSON in src/main.go: the
No-details error for a transport failure or a failure status code, and
the Invalid-JSON error for a body that does not decode. -/
inductive FetchError where
  | noDetails
  | invalidJSON
deriving DecidableEq, Repr

/-- The triple returned by GetJSON in src/main.go: the decoded value (nil
on error), the raw response pointer (nil when no response was received),
and the error (nil on success). -/
structure GetJSONResult where
  value : Option Json
  response : Option HttpResponse
  error : Option FetchError
deriving DecidableEq, Repr

/-- Embedding of GetJSON from src/main.go. The argument is the outcome of
http.Get on the requested URL. The guard mirrors the source condition
err not nil, or response.StatusCode greater than 300; otherwise the body
is decoded, and a decode failure yields the Invalid-JSON error. -/
def GetJSON : Option HttpResponse → GetJSONResult
  | none => ⟨none, none, some FetchError.noDetails⟩
  | some r =>
    if 300 < r.statusCode then
      ⟨none, some r, some FetchError.noDetails⟩
    else
      match r.body with
      | none => ⟨none, some r, some FetchError.invalidJSON⟩
      | some j => ⟨some j, some r, none⟩

/-- Embedding of Go strings.Split with a one-character separator: splits
the character list at every occurrence of sep; the result always has one
more element than the number of occurrences of sep. -/
def splitOnChar (sep : Char) : List Char → List (List Char)
  | [] => [[]]
  | c :: cs =>
    if c = sep then [] :: splitOnChar sep cs
    else
      match splitOnChar sep cs with
      | r :: rs => (c :: r) :: rs
      | [] => [[c]]

/-- Embedding of ToUrl from src/main.go: split the identifier on the
at-sign; exactly two parts are required (emptiness of the parts is not
examined); the two URLs are built by plain string concatenation into the
fixed templates, lnurlp URL first. None stands for the
Invalid-lightning-address error. -/
def ToUrl (identifier : String) : Option (String × String) :=
  match (splitOnChar '@' identifier.data).map String.mk with
  | [localPart, domain] =>
    some ("https://" ++ domain ++ "/.well-known/lnurlp/" ++ localPart,
          "https://" ++ domain ++ "/.well-known/keysend/" ++ localPart)
  | _ => none

/-- The response body assembled by the handler: the lnurlp and keysend
fields, each nil until populated from a successful fetch. -/
structure LNResponse where
  lnurlp : Option Json
  keysend : Option Json
deriving DecidableEq, Repr

/-- The guard of the second status branch in both handlers: both
responses are non-nil and both status codes are greater than 300. -/
def bothFailureStatus : Option HttpResponse → Option HttpResponse → Bool
  | some a, some b => decide (300 < a.statusCode) && decide (300 < b.statusCode)
  | _, _ => false

/-- Embedding of the GET lightning-address-details handler of
src/main.go. Parse the identifier with ToUrl (400 on failure), run
GetJSON on each URL, populate each field only when its GetJSON call
returned no error, then decide the status: 400 when neither call
received a response, the lnurlp status when both responses were received
with status codes greater than 300, and 200 otherwise. The assembled
body is returned in every branch. -/
def Resolve (fetcher : String → Option HttpResponse) (ln : String) :
    LNResponse × Nat :=
  match ToUrl ln with
  | none => (⟨none, none⟩, 400)
  | some (lnurlpUrl, keysendUrl) =>
    let g1 := GetJSON (fetcher lnurlpUrl)
    let g2 := GetJSON (fetcher keysendUrl)
    let responseBody : LNResponse :=
      ⟨if g1.error = none then g1.value else none,
       if g2.error = none then g2.value else none⟩
    match g1.response, g2.response with
    | none, none => (responseBody, 400)
    | some a, some b =>
      if 300 < a.statusCode ∧ 300 < b.statusCode then
        (responseBody, a.statusCode)
      else (responseBody, 200)
    | _, _ => (responseBody, 200)

/-- Embedding of the GET lightning-address-details handler of
src/unnamed/part_000, translated independently from that file: the split
and URL construction are inline, the keysend endpoint is fetched first,
and the fetch-decode-populate logic is written out inline for each
endpoint, followed by the same status decision. -/
def ResolveInline (fetcher : String → Option HttpResponse) (ln : String) :
    LNResponse × Nat :=
  match (splitOnChar '@' ln.data).map String.mk with
  | [localPart, domain] =>
    let keysendUrl := "https://" ++ domain ++ "/.well-known/keysend/" ++ localPart
    let lnurlpUrl := "https://" ++ domain ++ "/.well-known/lnurlp/" ++ localPart
    let keysendResponse := fetcher keysendUrl
    let keysendField : Option Json :=
      match keysendResponse with
      | none => none
      | some r =>
        if 300 < r.statusCode then none
        else
          match r.body with
          | none => none
          | some keysend => some keysend
    let lnurlpResponse := fetcher lnurlpUrl
    let lnurlpField : Option Json :=
      match lnurlpResponse with
      | none => none
      | some r =>
        if 300 < r.statusCode then none
        else
          match r.body with
          | none => none
          | some lnurlp => some lnurlp
    let responseBody : LNResponse := ⟨lnurlpField, keysendField⟩
    match lnurlpResponse, keysendResponse with
    | none, none => (responseBody, 400)
    | some a, some b =>
      if 300 < a.statusCode ∧ 300 < b.statusCode then
        (responseBody, a.statusCode)
      else (responseBody, 200)
    | _, _ => (responseBody, 200)
  | _ => (⟨none, none⟩, 400)

/-- Modelled from the spec: the success condition the spec states for
FetchJSON, namely that a response was received and its status code is
strictly less than 300. Written from the spec wording, for comparison
with the code. -/
def specFetchSuccess : Option HttpResponse → Bool
  | none => false
  | some r => decide (r.statusCode < 300)

/-- Modelled from the spec: a failure-range status code in the spec
wording, namely any code of 300 or greater. -/
def specFailureStatus (s : Nat) : Bool := decide (300 ≤ s)

/-- Fetcher giving the lnurlp endpoint a status-300 response with an
undecodable body and the keysend endpoint a status-500 response. -/
def fetcher300and500 : String → Option HttpResponse := fun url =>
  if url = "https://example.com/.well-known/lnurlp/alice" then some ⟨300, none⟩
  else if url = "https://example.com/.well-known/keysend/alice" then some ⟨500, none⟩
  else none

/-- Fetcher giving the lnurlp endpoint a 404 response and the keysend
endpoint a 500 response. -/
def fetcher404and500 : String → Option HttpResponse := fun url =>
  if url = "https://example.com/.well-known/lnurlp/alice" then some ⟨404, none⟩
  else if url = "https://example.com/.well-known/keysend/alice" then some ⟨500, none⟩
  else none

/-- Fetcher on which every URL is unreachable: no response object at all. -/
def fetcherUnreachable : String → Option HttpResponse := fun _ => none

/-- Fetcher on which every URL yields a status-200 response whose body is
not decodable JSON. -/
def fetcherBadJSON : String → Option HttpResponse := fun _ => some ⟨200, none⟩

/-- Fetcher giving the lnurlp endpoint a 200 response with the JSON body
consisting of the single pair of key a and value 1, and reaching no
response anywhere else. -/
def fetcherLnurlpOnly : String → Option HttpResponse := fun url =>
  if url = "https://example.com/.well-known/lnurlp/alice" then
    some ⟨200, some (Json.objCons "a" (Json.num 1) Json.objNil)⟩
  else none

/-- Variant of fetcherLnurlpOnly that differs only on the keysend URL,
where it yields a 500 response. -/
def fetcherLnurlpOnlyKeysend500 : String → Option HttpResponse := fun url =>
  if url = "https://example.com/.well-known/lnurlp/alice" then
    some ⟨200, some (Json.objCons "a" (Json.num 1) Json.objNil)⟩
  else if url = "https://example.com/.well-known/keysend/alice" then some ⟨500, none⟩
  else none

/-- Fetcher giving the keysend endpoint a 200 response with the JSON body
true, and reaching no response anywhere else. -/
def fetcherKeysendOnly : String → Option HttpResponse := fun url =>
  if url = "https://example.com/.well-known/keysend/alice" then
    some ⟨200, some (Json.bool true)⟩
  else none

/-- Variant of fetcherKeysendOnly that differs only on the lnurlp URL,
where it yields a 404 response. -/
def fetcherKeysendOnlyLnurlp404 : String → Option HttpResponse := fun url =>
  if url = "https://example.com/.well-known/keysend/alice" then
    some ⟨200, some (Json.bool true)⟩
  else if url = "https://example.com/.well-known/lnurlp/alice" then some ⟨404, none⟩
  else none

/-! Helper lemmas shared by the claim theorems. -/

theorem splitOnChar_ne_nil (sep : Char) (l : List Char) :
    splitOnChar sep l ≠ [] := by
  cases l with
  | nil => simp [splitOnChar]
  | cons c cs =>
    simp only [splitOnChar]
    by_cases h : c = sep
    · simp [h]
    · rcases hr : splitOnChar sep cs with _ | ⟨r, rs⟩ <;> simp [h]

theorem splitOnChar_length (sep : Char) (l : List Char) :
    (splitOnChar sep l).length = l.count sep + 1 := by
  induction l with
  | nil => simp [splitOnChar]
  | cons c cs ih =>
    simp only [splitOnChar]
    by_cases h : c = sep
    · simp [h, List.count_cons, ih]
    · rcases hr : splitOnChar sep cs with _ | ⟨r, rs⟩
      · exact absurd hr (splitOnChar_ne_nil sep cs)
      · simp [h, List.count_cons, ← ih, hr]

theorem GetJSON_response (fetch : Option HttpResponse) :
    (GetJSON fetch).response = fetch := by
  cases fetch with
  | none => rfl
  | some r =>
    by_cases h : 300 < r.statusCode
    · simp [GetJSON, h]
    · cases hb : r.body <;> simp [GetJSON, h, hb]

theorem GetJSON_field (fetch : Option HttpResponse) :
    (if (GetJSON fetch).error = none then (GetJSON fetch).value else none) =
      (match fetch with
       | none => none
       | some r =>
         if 300 < r.statusCode then none
         else
           match r.body with
           | none => none
           | some j => some j) := by
  cases fetch with
  | none => rfl
  | some r =>
    by_cases h : 300 < r.statusCode
    · simp [GetJSON, h]
    · cases hb : r.body <;> simp [GetJSON, h, hb]

theorem GetJSON_value_of_error (fetch : Option HttpResponse)
    (h : (GetJSON fetch).error ≠ none) : (GetJSON fetch).value = none := by
  cases fetch with
  | none => rfl
  | some r =>
    by_cases hs : 300 < r.statusCode
    · simp [GetJSON, hs]
    · cases hb : r.body
      · simp [GetJSON, hs, hb]
      · exact absurd (by simp [GetJSON, hs, hb]) h

theorem GetJSON_value_ne_none_iff (fetch : Option HttpResponse) :
    (GetJSON fetch).value ≠ none ↔ (GetJSON fetch).error = none := by
  cases fetch with
  | none => simp [GetJSON]
  | some r =>
    by_cases hs : 300 < r.statusCode
    · simp [GetJSON, hs]
    · cases hb : r.body <;> simp [GetJSON, hs, hb]

theorem ToUrl_eq_none_of_length_ne (id : String)
    (h : (splitOnChar '@' id.data).length ≠ 2) : ToUrl id = none := by
  unfold ToUrl
  split
  next localPart domain heq =>
    exact absurd (by simpa using congrArg List.length heq) h
  next => rfl

theorem ToUrl_eq_some_of_split (id localPart domain : String)
    (h : (splitOnChar '@' id.data).map String.mk = [localPart, domain]) :
    ToUrl id =
      some ("https://" ++ domain ++ "/.well-known/lnurlp/" ++ localPart,
            "https://" ++ domain ++ "/.well-known/keysend/" ++ localPart) := by
  unfold ToUrl
  rw [h]

theorem Resolve_body (fetcher : String → Option HttpResponse)
    (ln u1 u2 : String) (hurl : ToUrl ln = some (u1, u2)) :
    (Resolve fetcher ln).1 =
      ⟨if (GetJSON (fetcher u1)).error = none then (GetJSON (fetcher u1)).value else none,
       if (GetJSON (fetcher u2)).error = none then (GetJSON (fetcher u2)).value else none⟩ := by
  simp only [Resolve, hurl]
  rcases (GetJSON (fetcher u1)).response with _ | a <;>
    rcases (GetJSON (fetcher u2)).response with _ | b
  · rfl
  · rfl
  · rfl
  · by_cases h : 300 < a.statusCode ∧ 300 < b.statusCode <;> simp [h]

theorem Resolve_status (fetcher : String → Option HttpResponse)
    (ln u1 u2 : String) (hurl : ToUrl ln = some (u1, u2)) :
    (Resolve fetcher ln).2 =
      (match fetcher u1, fetcher u2 with
       | none, none => 400
       | some a, some b =>
         if 300 < a.statusCode ∧ 300 < b.statusCode then a.statusCode else 200
       | _, _ => 200) := by
  simp only [Resolve, hurl]
  rw [GetJSON_response (fetcher u1), GetJSON_response (fetcher u2)]
  rcases hf1 : fetcher u1 with _ | a <;> rcases hf2 : fetcher u2 with _ | b
  · rfl
  · rfl
  · rfl
  · by_cases h : 300 < a.statusCode ∧ 300 < b.statusCode <;> simp [h]

theorem GetJSON_field_eq_value (fetch : Option HttpResponse) :
    (if (GetJSON fetch).error = none then (GetJSON fetch).value else none) =
      (GetJSON fetch).value := by
  by_cases e : (GetJSON fetch).error = none
  · rw [if_pos e]
  · rw [if_neg e, GetJSON_value_of_error fetch e]

/-! The claim theorems. -/

/-- Claim C1, counterexample to the claim as stated. In the spec's own
failure range (codes of 300 and above), a lnurlp response with status
exactly 300 (here with an undecodable body) and a keysend response with
status 500 are both failure-range responses, yet Resolve returns status
200, not the lnurlp status 300: the code's branch requires both codes to
be strictly greater than 300. -/
theorem resolve_both_failure_range_cex :
    ToUrl "alice@example.com" =
      some ("https://example.com/.well-known/lnurlp/alice",
            "https://example.com/.well-known/keysend/alice")
    ∧ fetcher300and500 "https://example.com/.well-known/lnurlp/alice" = some ⟨300, none⟩
    ∧ fetcher300and500 "https://example.com/.well-known/keysend/alice" = some ⟨500, none⟩
    ∧ specFailureStatus 300 = true
    ∧ specFailureStatus 500 = true
    ∧ (Resolve fetcher300and500 "alice@example.com").2 ≠ 300
    ∧ (Resolve fetcher300and500 "alice@example.com").2 = 200 := by decide

/-- Claim C1, amended: for every request where both fetches yield a
received response and both responses have status codes strictly greater
than 300, Resolve returns the status code of the lnurlp response (not
keysend's) with the empty result as body. -/
theorem resolve_both_failure_statuses (fetcher : String → Option HttpResponse)
    (ln u1 u2 : String) (r1 r2 : HttpResponse)
    (hurl : ToUrl ln = some (u1, u2))
    (h1 : fetcher u1 = some r1) (h2 : fetcher u2 = some r2)
    (hs1 : 300 < r1.statusCode) (hs2 : 300 < r2.statusCode) :
    Resolve fetcher ln = (⟨none, none⟩, r1.statusCode) := by
  have hb := Resolve_body fetcher ln u1 u2 hurl
  have hst := Resolve_status fetcher ln u1 u2 hurl
  rw [h1, h2] at hb hst
  have e1 : (GetJSON (some r1)).error = some FetchError.noDetails := by
    simp [GetJSON, hs1]
  have e2 : (GetJSON (some r2)).error = some FetchError.noDetails := by
    simp [GetJSON, hs2]
  rw [e1, e2] at hb
  simp only [reduceCtorEq, if_false] at hb
  simp only [hs1, hs2, and_self, if_true] at hst
  exact Prod.ext hb hst

/-- Claim C1, witness for the amended theorem at the spec's own example:
lnurlp failing with 404 and keysend failing with 500 yields status 404
with both fields empty. -/
theorem resolve_both_failure_statuses_witness :
    Resolve fetcher404and500 "alice@example.com" = (⟨none, none⟩, 404) :=
  resolve_both_failure_statuses fetcher404and500 "alice@example.com"
    "https://example.com/.well-known/lnurlp/alice"
    "https://example.com/.well-known/keysend/alice"
    ⟨404, none⟩ ⟨500, none⟩ (by decide) (by decide) (by decide)
    (by decide) (by decide)

/-- Claim C2, counterexample to the claim as stated: a received response
with status code exactly 300 and a decodable body is treated as a full
success by GetJSON (no error, value decoded), although 300 is not
strictly less than 300, refuting that every status code of 300 or
greater is treated as a failure. -/
theorem getjson_status_300_cex :
    specFetchSuccess (some ⟨300, some Json.null⟩) = false
    ∧ (GetJSON (some ⟨300, some Json.null⟩)).error = none
    ∧ (GetJSON (some ⟨300, some Json.null⟩)).value = some Json.null := by decide

/-- Claim C2, amended: GetJSON treats a fetch as an HTTP-level success
(it does not produce the No-details error) if and only if a response was
received and its status code is at most 300; every status code strictly
greater than 300, and any transport failure, produces the No-details
error. Decoding failures are reported separately as the Invalid-JSON
error. -/
theorem getjson_success_iff_received_and_le_300 (fetch : Option HttpResponse) :
    (GetJSON fetch).error ≠ some FetchError.noDetails ↔
      ∃ r, fetch = some r ∧ r.statusCode ≤ 300 := by
  cases fetch with
  | none => simp [GetJSON]
  | some r =>
    by_cases h : 300 < r.statusCode
    · simp only [GetJSON, h, if_true]
      simp
      omega
    · cases hb : r.body <;> simp [GetJSON, h, hb] <;> omega

/-- Claim C3, counterexample to the claim as stated: ToUrl accepts the
identifiers user-then-at-sign (empty domain) and at-sign-then-domain
(empty local part) instead of failing, because the code checks only that
the split yields exactly two parts, never their non-emptiness. -/
theorem tourl_accepts_empty_parts_cex :
    ToUrl "user@" =
      some ("https:///.well-known/lnurlp/user", "https:///.well-known/keysend/user")
    ∧ ToUrl "@domain" =
      some ("https://domain/.well-known/lnurlp/", "https://domain/.well-known/keysend/") := by
  decide

/-- Claim C3, amended: ToUrl splits the identifier on the at-sign and
fails with the Invalid-lightning-address error exactly when the split
does not yield exactly two parts; the parts are not checked for
emptiness, so identifiers with an empty local part or an empty domain
are accepted. -/
theorem tourl_fails_iff_not_two_parts (identifier : String) :
    ToUrl identifier = none ↔ (splitOnChar '@' identifier.data).length ≠ 2 := by
  constructor
  · intro h hlen
    obtain ⟨a, b, hab⟩ := List.length_eq_two.mp hlen
    rw [ToUrl_eq_some_of_split identifier (String.mk a) (String.mk b)
      (by rw [hab]; rfl)] at h
    exact Option.noConfusion h
  · exact ToUrl_eq_none_of_length_ne identifier

/-- Claim C4: for every identifier string that does not contain exactly
one at-sign (zero occurrences or more than one), Resolve returns status
400 with an empty result (both fields nil), for every fetcher, so no
fetch outcome can influence the answer. -/
theorem resolve_400_without_exactly_one_at (fetcher : String → Option HttpResponse)
    (ln : String) (h : ln.data.count '@' ≠ 1) :
    Resolve fetcher ln = (⟨none, none⟩, 400) := by
  have hto : ToUrl ln = none :=
    ToUrl_eq_none_of_length_ne ln (by rw [splitOnChar_length]; omega)
  simp [Resolve, hto]

/-- Claim C4, witness: an identifier with no at-sign and one with two
at-signs both yield status 400 and an empty body. -/
theorem resolve_400_without_exactly_one_at_witness :
    "nodomain".data.count '@' ≠ 1
    ∧ "a@b@c".data.count '@' ≠ 1
    ∧ Resolve fetcherUnreachable "nodomain" = (⟨none, none⟩, 400)
    ∧ Resolve fetcherUnreachable "a@b@c" = (⟨none, none⟩, 400) :=
  ⟨by decide, by decide,
   resolve_400_without_exactly_one_at fetcherUnreachable "nodomain" (by decide),
   resolve_400_without_exactly_one_at fetcherUnreachable "a@b@c" (by decide)⟩

/-- Claim C5: for every request where neither the lnurlp fetch nor the
keysend fetch produced any response at all, Resolve returns status 400
with both result fields nil. -/
theorem resolve_400_neither_responded (fetcher : String → Option HttpResponse)
    (ln u1 u2 : String) (hurl : ToUrl ln = some (u1, u2))
    (h1 : fetcher u1 = none) (h2 : fetcher u2 = none) :
    Resolve fetcher ln = (⟨none, none⟩, 400) := by
  have hb := Resolve_body fetcher ln u1 u2 hurl
  have hst := Resolve_status fetcher ln u1 u2 hurl
  rw [h1, h2] at hb hst
  simp only [GetJSON, reduceCtorEq, if_false] at hb
  exact Prod.ext hb hst

/-- Claim C5, witness: with both endpoints unreachable the status is 400
and both fields are nil. -/
theorem resolve_400_neither_responded_witness :
    Resolve fetcherUnreachable "alice@example.com" = (⟨none, none⟩, 400) :=
  resolve_400_neither_responded fetcherUnreachable "alice@example.com"
    "https://example.com/.well-known/lnurlp/alice"
    "https://example.com/.well-known/keysend/alice"
    (by decide) rfl rfl

/-- Claim C6: a response received with a success-range status code but an
undecodable body counts as received (so the 400 branch is not taken),
does not populate its result field, and does not count toward the
both-failure-status branch: with both fetches in that situation, Resolve
returns status 200 with both fields empty. -/
theorem resolve_undecodable_counts_as_received (fetcher : String → Option HttpResponse)
    (ln u1 u2 : String) (s1 s2 : Nat)
    (hurl : ToUrl ln = some (u1, u2))
    (h1 : fetcher u1 = some ⟨s1, none⟩) (h2 : fetcher u2 = some ⟨s2, none⟩)
    (hs1 : s1 < 300) (hs2 : s2 < 300) :
    Resolve fetcher ln = (⟨none, none⟩, 200) := by
  have hb := Resolve_body fetcher ln u1 u2 hurl
  have hst := Resolve_status fetcher ln u1 u2 hurl
  rw [h1, h2] at hb hst
  have hn1 : ¬ (300 < s1) := by omega
  have hn2 : ¬ (300 < s2) := by omega
  simp only [GetJSON, hn1, hn2, if_false, reduceCtorEq] at hb
  simp only [hn1, false_and, if_false] at hst
  exact Prod.ext hb hst

/-- Claim C6, witness: both endpoints return status-200 responses with
non-JSON-decodable bodies; the result fields remain empty and the status
is 200. -/
theorem resolve_undecodable_counts_as_received_witness :
    Resolve fetcherBadJSON "alice@example.com" = (⟨none, none⟩, 200) :=
  resolve_undecodable_counts_as_received fetcherBadJSON "alice@example.com"
    "https://example.com/.well-known/lnurlp/alice"
    "https://example.com/.well-known/keysend/alice" 200 200
    (by decide) rfl rfl (by decide) (by decide)

/-- Claim C7: whenever the address parses and the fetch outcomes fall
into neither the neither-responded branch nor the both-failure-status
branch, Resolve returns status 200, the body carries exactly the values
accumulated by the two GetJSON calls, and each field is populated (not
nil) exactly when its fetch succeeded (its GetJSON call returned no
error). -/
theorem resolve_default_200 (fetcher : String → Option HttpResponse)
    (ln u1 u2 : String) (hurl : ToUrl ln = some (u1, u2))
    (hresp : ¬ (fetcher u1 = none ∧ fetcher u2 = none))
    (hfail : bothFailureStatus (fetcher u1) (fetcher u2) = false) :
    (Resolve fetcher ln).2 = 200
    ∧ (Resolve fetcher ln).1.lnurlp = (GetJSON (fetcher u1)).value
    ∧ (Resolve fetcher ln).1.keysend = (GetJSON (fetcher u2)).value
    ∧ ((Resolve fetcher ln).1.lnurlp ≠ none ↔ (GetJSON (fetcher u1)).error = none)
    ∧ ((Resolve fetcher ln).1.keysend ≠ none ↔ (GetJSON (fetcher u2)).error = none) := by
  have hst := Resolve_status fetcher ln u1 u2 hurl
  have h200 : (Resolve fetcher ln).2 = 200 := by
    rcases hf1 : fetcher u1 with _ | a <;> rcases hf2 : fetcher u2 with _ | b
    · exact absurd ⟨hf1, hf2⟩ hresp
    · rw [hf1, hf2] at hst; simpa using hst
    · rw [hf1, hf2] at hst; simpa using hst
    · have hnf : ¬ (300 < a.statusCode ∧ 300 < b.statusCode) := by
        rintro ⟨ha, hb2⟩
        rw [hf1, hf2] at hfail
        simp [bothFailureStatus, ha, hb2] at hfail
      rw [hf1, hf2] at hst
      simpa [hnf] using hst
  have hb := Resolve_body fetcher ln u1 u2 hurl
  have hl : (Resolve fetcher ln).1.lnurlp = (GetJSON (fetcher u1)).value := by
    rw [hb]; exact GetJSON_field_eq_value (fetcher u1)
  have hk : (Resolve fetcher ln).1.keysend = (GetJSON (fetcher u2)).value := by
    rw [hb]; exact GetJSON_field_eq_value (fetcher u2)
  refine ⟨h200, hl, hk, ?_, ?_⟩
  · rw [hl]; exact GetJSON_value_ne_none_iff (fetcher u1)
  · rw [hk]; exact GetJSON_value_ne_none_iff (fetcher u2)

/-- Claim C7, witness at the spec's example: lnurlp succeeds with the
JSON object holding key a with value 1; keysend is unreachable; the
status is 200, the lnurlp field holds the decoded object and the keysend
field is nil. -/
theorem resolve_default_200_witness :
    (Resolve fetcherLnurlpOnly "alice@example.com").2 = 200
    ∧ (Resolve fetcherLnurlpOnly "alice@example.com").1.lnurlp =
        some (Json.objCons "a" (Json.num 1) Json.objNil)
    ∧ (Resolve fetcherLnurlpOnly "alice@example.com").1.keysend = none := by
  have h := resolve_default_200 fetcherLnurlpOnly "alice@example.com"
      "https://example.com/.well-known/lnurlp/alice"
      "https://example.com/.well-known/keysend/alice"
      (by decide) (by decide) (by decide)
  refine ⟨h.1, ?_, ?_⟩
  · rw [h.2.1]; decide
  · rw [h.2.2.1]; decide

/-- Claim C9: the two fields of the emitted result are populated
independently. For any two runs agreeing on the identifier and on the
lnurlp fetch outcome, the lnurlp field is the same however the keysend
outcome differs, and symmetrically for the keysend field. -/
theorem resolve_fields_independent :
    (∀ (f f' : String → Option HttpResponse) (ln u1 u2 : String),
        ToUrl ln = some (u1, u2) → f u1 = f' u1 →
        (Resolve f ln).1.lnurlp = (Resolve f' ln).1.lnurlp)
    ∧ (∀ (f f' : String → Option HttpResponse) (ln u1 u2 : String),
        ToUrl ln = some (u1, u2) → f u2 = f' u2 →
        (Resolve f ln).1.keysend = (Resolve f' ln).1.keysend) := by
  constructor
  · intro f f' ln u1 u2 hurl hagree
    rw [Resolve_body f ln u1 u2 hurl, Resolve_body f' ln u1 u2 hurl]
    dsimp only
    rw [hagree]
  · intro f f' ln u1 u2 hurl hagree
    rw [Resolve_body f ln u1 u2 hurl, Resolve_body f' ln u1 u2 hurl]
    dsimp only
    rw [hagree]

/-- Claim C9, witness: two fetcher pairs on the same identifier; the
first pair agrees on the lnurlp URL and differs on keysend (unreachable
against status 500), the second agrees on keysend and differs on lnurlp
(unreachable against status 404); the agreed field is unchanged in each
pair. -/
theorem resolve_fields_independent_witness :
    (Resolve fetcherLnurlpOnly "alice@example.com").1.lnurlp =
      (Resolve fetcherLnurlpOnlyKeysend500 "alice@example.com").1.lnurlp
    ∧ (Resolve fetcherKeysendOnly "alice@example.com").1.keysend =
      (Resolve fetcherKeysendOnlyLnurlp404 "alice@example.com").1.keysend :=
  ⟨resolve_fields_independent.1 fetcherLnurlpOnly fetcherLnurlpOnlyKeysend500
      "alice@example.com" "https://example.com/.well-known/lnurlp/alice"
      "https://example.com/.well-known/keysend/alice" (by decide) (by decide),
   resolve_fields_independent.2 fetcherKeysendOnly fetcherKeysendOnlyLnurlp404
      "alice@example.com" "https://example.com/.well-known/lnurlp/alice"
      "https://example.com/.well-known/keysend/alice" (by decide) (by decide)⟩

/-- Claim C10: the factored handler of src/main.go and the inline handler
of src/unnamed/part_000 are equivalent: for every identifier and every
fixed assignment of fetch outcomes to URLs, both return the same decided
status and the same response body. -/
theorem handlers_equivalent (fetcher : String → Option HttpResponse) (ln : String) :
    ResolveInline fetcher ln = Resolve fetcher ln := by
  unfold ResolveInline Resolve ToUrl
  rcases hs : (splitOnChar '@' ln.data).map String.mk with _ | ⟨a, _ | ⟨b, _ | ⟨c, l⟩⟩⟩
  · rfl
  · rfl
  · dsimp only
    rw [GetJSON_field (fetcher ("https://" ++ b ++ "/.well-known/lnurlp/" ++ a)),
        GetJSON_field (fetcher ("https://" ++ b ++ "/.well-known/keysend/" ++ a)),
        GetJSON_response (fetcher ("https://" ++ b ++ "/.well-known/lnurlp/" ++ a)),
        GetJSON_response (fetcher ("https://" ++ b ++ "/.well-known/keysend/" ++ a))]
  · rfl

/-- Claim C8: whenever the split of the identifier yields exactly the
parts localPart and domain, ToUrl builds exactly the two URLs by plain
string substitution of domain and local part into the fixed templates,
with no escaping or encoding applied (whatever characters the parts
hold are inherited verbatim). -/
theorem tourl_template_substitution (identifier localPart domain : String)
    (h : (splitOnChar '@' identifier.data).map String.mk = [localPart, domain]) :
    ToUrl identifier =
      some ("https://" ++ domain ++ "/.well-known/lnurlp/" ++ localPart,
            "https://" ++ domain ++ "/.well-known/keysend/" ++ localPart) :=
  ToUrl_eq_some_of_split identifier localPart domain h

/-- Claim C8, witness at the spec's example: the identifier
user-at-domain.com yields exactly the lnurlp and keysend well-known URLs
on domain.com for user. -/
theorem tourl_template_substitution_witness :
    (splitOnChar '@' "user@domain.com".data).map String.mk = ["user", "domain.com"]
    ∧ ToUrl "user@domain.com" =
        some ("https://domain.com/.well-known/lnurlp/user",
              "https://domain.com/.well-known/keysend/user") :=
  ⟨by decide,
   by rw [tourl_template_substitution "user@domain.com" "user" "domain.com" (by decide)]; decide⟩
